import Mathlib

/-!
Shallow embedding of the graphics-API interception layer (ReShade-based
repository) used to settle the specification claims.

Conventions of the embedding:
* machine integers (`UINT`, `uint32_t`, `uint64_t`, `uint16_t`) are modelled as
  `Nat`; wherever the C++ code truncates (a `static_cast` to a narrower type)
  or wraps (unsigned arithmetic) this is made explicit with `% 2^32` / `% 2^16`;
* bit flags are `Nat` bit masks manipulated with `&&&` / `|||`, exactly the
  masks the source uses;
* out-parameters become return values; an operation that returns `false` and
  leaves its out-handle at the zero it was initialised to is modelled by an
  explicit `(Bool × Nat)` result or an `Option` result (`none` = returned
  `false` with a zero out-handle);
* calls into the native driver are abstracted by explicit environment records
  carrying the success/failure and the returned native object of each native
  call, so that every control path of the hooked code is represented.
-/

/-! ## Generic bit-set helpers -/

/-- Bit-set inclusion on flag words modelled as naturals:
every bit set in `a` is also set in `b`. -/
def NatSubset (a b : Nat) : Prop := ∀ i, a.testBit i = true → b.testBit i = true

theorem natSubset_trans {a b c : Nat} (h1 : NatSubset a b) (h2 : NatSubset b c) :
    NatSubset a c := fun i hi => h2 i (h1 i hi)

theorem natSubset_lor_left (a b : Nat) : NatSubset a (a ||| b) := by
  intro i hi
  simp [Nat.testBit_or, hi]

theorem natSubset_lor_right (a b : Nat) : NatSubset b (a ||| b) := by
  intro i hi
  simp [Nat.testBit_or, hi]

theorem natSubset_lor_elim {a b c : Nat} (h1 : NatSubset a c) (h2 : NatSubset b c) :
    NatSubset (a ||| b) c := by
  intro i hi
  rw [Nat.testBit_or] at hi
  rcases Bool.or_eq_true _ _ |>.mp hi with h | h
  · exact h1 i h
  · exact h2 i h

theorem natSubset_of_land_eq {a b : Nat} (h : a &&& b = a) : NatSubset a b := by
  intro i hi
  rw [← h, Nat.testBit_and] at hi
  exact (Bool.and_eq_true _ _ |>.mp hi).2

/-- If `a ⊆ b` as bit sets and `a` meets the mask `m`, then `b` meets `m`. -/
theorem natSubset_land_ne_zero {a b m : Nat} (hab : NatSubset a b) (h : a &&& m ≠ 0) :
    b &&& m ≠ 0 := by
  obtain ⟨i, hi⟩ := Nat.ne_zero_implies_bit_true h
  rw [Nat.testBit_and] at hi
  obtain ⟨ha, hm⟩ := Bool.and_eq_true _ _ |>.mp hi
  intro hzero
  have : (b &&& m).testBit i = true := by
    rw [Nat.testBit_and, hab i ha, hm]
    rfl
  rw [hzero] at this
  simp [Nat.zero_testBit] at this

/-! ## Shared neutral data model (`reshade::api`)

The numeric flag values below are the ones from the public API header
(`resource_usage`: vertex_buffer 0x1, index_buffer 0x2, render_target 0x4,
unordered_access 0x8, depth_stencil 0x30, shader_resource 0xC0,
copy_dest 0x400, copy_source 0x800, resolve_dest 0x1000,
resolve_source 0x2000, constant_buffer 0x8000). -/

/-- `reshade::api::resource_type`. -/
inductive ResourceType where
  | unknown
  | buffer
  | texture_1d
  | texture_2d
  | texture_3d
  | surface
deriving DecidableEq

/-- `reshade::api::memory_heap`. -/
inductive MemoryHeap where
  | unknown
  | gpu_only
  | cpu_to_gpu
  | gpu_to_cpu
  | cpu_only
deriving DecidableEq

/-- `reshade::api::resource_desc`: the C++ union of the buffer view
(`buffer.size`) and the texture view (`texture.width` …) is flattened into
separate fields; which group is meaningful is determined by `type`, exactly as
in the source. `usage` is the `resource_usage` bit mask, `format` the numeric
value of `api::format`. -/
structure resource_desc where
  type : ResourceType
  size : Nat
  width : Nat
  height : Nat
  depth_or_layers : Nat
  levels : Nat
  format : Nat
  samples : Nat
  heap : MemoryHeap
  usage : Nat
deriving DecidableEq

/-- Value initialisation `api::resource_desc desc = {};`. -/
def resource_desc.empty : resource_desc :=
  { type := .unknown, size := 0, width := 0, height := 0, depth_or_layers := 0,
    levels := 0, format := 0, samples := 0, heap := .unknown, usage := 0 }

/-- Equality on the fields the round-trip claim compares: type, heap, usage,
and the buffer size or the six texture fields depending on the resource
type. -/
def resource_desc.fields_agree (a b : resource_desc) : Prop :=
  a.type = b.type ∧ a.heap = b.heap ∧ a.usage = b.usage ∧
    (if b.type = ResourceType.buffer then a.size = b.size
     else a.width = b.width ∧ a.height = b.height ∧
       a.depth_or_layers = b.depth_or_layers ∧ a.levels = b.levels ∧
       a.format = b.format ∧ a.samples = b.samples)

instance (a b : resource_desc) : Decidable (a.fields_agree b) := by
  unfold resource_desc.fields_agree
  infer_instance

/-! ## D3D11 translation layer (`render_d3d11_utils.cpp`) -/

namespace d3d11

/-- `reshade::d3d11::convert_format(api::format) -> DXGI_FORMAT`:
values ≥ 1000 map to `DXGI_FORMAT_UNKNOWN` (0), everything else is a
numeric-identity cast. -/
def convert_format_to_native (format : Nat) : Nat :=
  if format ≥ 1000 then 0 else format

/-- `reshade::d3d11::convert_format(DXGI_FORMAT) -> api::format`: identity cast. -/
def convert_format_to_api (format : Nat) : Nat := format

/-- `convert_memory_heap_to_d3d_usage`: returns the updated
`(D3D11_USAGE, cpu_access_flags)` in-out pair. `D3D11_USAGE` values:
DEFAULT 0, IMMUTABLE 1, DYNAMIC 2, STAGING 3; `D3D11_CPU_ACCESS_WRITE` is
0x10000 and `D3D11_CPU_ACCESS_READ` is 0x20000. The C++ switch has no case
for `memory_heap::unknown`, so that value leaves both outputs unchanged. -/
def convert_memory_heap_to_d3d_usage (heap : MemoryHeap) (usage cpu_access_flags : Nat) :
    Nat × Nat :=
  match heap with
  | .gpu_only => (0, cpu_access_flags)
  | .cpu_to_gpu => (2, cpu_access_flags ||| 0x10000)
  | .gpu_to_cpu => (3, cpu_access_flags ||| 0x20000)
  | .cpu_only => (3, cpu_access_flags ||| (0x20000 ||| 0x10000))
  | .unknown => (usage, cpu_access_flags)

/-- `convert_d3d_usage_to_memory_heap`: DEFAULT and IMMUTABLE map to
`gpu_only`, DYNAMIC to `cpu_to_gpu`, STAGING to `gpu_to_cpu`; the switch has
no default case, so any other value leaves the in-out heap unchanged. -/
def convert_d3d_usage_to_memory_heap (usage : Nat) (heap : MemoryHeap) : MemoryHeap :=
  if usage = 0 ∨ usage = 1 then .gpu_only
  else if usage = 2 then .cpu_to_gpu
  else if usage = 3 then .gpu_to_cpu
  else heap

/-- One `if (...) flags |= bit; else flags &= ~bit;` statement of
`convert_resource_usage_to_bind_flags`; the complement is the 32-bit
`~bit` of the C++ code. -/
def set_or_clear_flag (c : Bool) (flags bit : Nat) : Nat :=
  if c then flags ||| bit else flags &&& (0xFFFFFFFF ^^^ bit)

/-- `convert_resource_usage_to_bind_flags` (usage mask → `D3D11_BIND_*` mask,
operating on the in-out `bind_flags`). Bind-flag values:
VERTEX_BUFFER 0x1, INDEX_BUFFER 0x2, CONSTANT_BUFFER 0x4, SHADER_RESOURCE 0x8,
RENDER_TARGET 0x20, DEPTH_STENCIL 0x40, UNORDERED_ACCESS 0x80. -/
def convert_resource_usage_to_bind_flags (usage bind_flags : Nat) : Nat :=
  let b := set_or_clear_flag (usage &&& 0x4 != 0) bind_flags 0x20
  let b := set_or_clear_flag (usage &&& 0x30 != 0) b 0x40
  let b := set_or_clear_flag (usage &&& 0xC0 != 0) b 0x8
  let b := set_or_clear_flag (usage &&& 0x8 != 0) b 0x80
  let b := set_or_clear_flag (usage &&& 0x2 != 0) b 0x2
  let b := set_or_clear_flag (usage &&& 0x1 != 0) b 0x1
  let b := set_or_clear_flag (usage &&& 0x8000 != 0) b 0x4
  b

/-- One `if (...) usage |= bits;` statement of
`convert_bind_flags_to_resource_usage`. -/
def set_flag_if (c : Bool) (flags bits : Nat) : Nat :=
  if c then flags ||| bits else flags

/-- `convert_bind_flags_to_resource_usage` (`D3D11_BIND_*` mask → usage mask,
operating on the in-out `usage`). The first statement unconditionally adds
`copy_dest | copy_source` (resources are generally copyable in D3D11). -/
def convert_bind_flags_to_resource_usage (bind_flags usage : Nat) : Nat :=
  let u := usage ||| (0x400 ||| 0x800)
  let u := set_flag_if (bind_flags &&& 0x20 != 0) u 0x4
  let u := set_flag_if (bind_flags &&& 0x40 != 0) u 0x30
  let u := set_flag_if (bind_flags &&& 0x8 != 0) u 0xC0
  let u := set_flag_if (bind_flags &&& 0x80 != 0) u 0x8
  let u := set_flag_if (bind_flags &&& 0x2 != 0) u 0x2
  let u := set_flag_if (bind_flags &&& 0x1 != 0) u 0x1
  let u := set_flag_if (bind_flags &&& 0x4 != 0) u 0x8000
  u

/-- `D3D11_BUFFER_DESC`, restricted to the fields the conversion functions
read or write (`MiscFlags` and `StructureByteStride` are untouched by both
directions and stay at their zero initialisation). -/
structure D3D11_BUFFER_DESC where
  ByteWidth : Nat
  Usage : Nat
  BindFlags : Nat
  CPUAccessFlags : Nat
deriving DecidableEq

/-- `D3D11_TEXTURE1D_DESC` (conversion-relevant fields). -/
structure D3D11_TEXTURE1D_DESC where
  Width : Nat
  MipLevels : Nat
  ArraySize : Nat
  Format : Nat
  Usage : Nat
  BindFlags : Nat
  CPUAccessFlags : Nat
deriving DecidableEq

/-- `D3D11_TEXTURE2D_DESC` (conversion-relevant fields; `SampleDesc.Count`
is flattened to `SampleCount`). -/
structure D3D11_TEXTURE2D_DESC where
  Width : Nat
  Height : Nat
  MipLevels : Nat
  ArraySize : Nat
  Format : Nat
  SampleCount : Nat
  Usage : Nat
  BindFlags : Nat
  CPUAccessFlags : Nat
deriving DecidableEq

/-- `D3D11_TEXTURE3D_DESC` (conversion-relevant fields). -/
structure D3D11_TEXTURE3D_DESC where
  Width : Nat
  Height : Nat
  Depth : Nat
  MipLevels : Nat
  Format : Nat
  Usage : Nat
  BindFlags : Nat
  CPUAccessFlags : Nat
deriving DecidableEq

/-- `convert_resource_desc(const api::resource_desc &, D3D11_BUFFER_DESC &)`.
The call sites zero-initialise the native descriptor, so the in-out
usage/cpu-access/bind inputs start at 0.  `ByteWidth` is a
`static_cast<UINT>` of the 64-bit size (the source asserts it fits). -/
def convert_resource_desc_to_buffer_desc (desc : resource_desc) : D3D11_BUFFER_DESC :=
  let uc := convert_memory_heap_to_d3d_usage desc.heap 0 0
  { ByteWidth := desc.size % 4294967296
    Usage := uc.1
    CPUAccessFlags := uc.2
    BindFlags := convert_resource_usage_to_bind_flags desc.usage 0 }

/-- `convert_resource_desc(const api::resource_desc &, D3D11_TEXTURE1D_DESC &)`
(the source asserts `height == 1` and `samples == 1`). -/
def convert_resource_desc_to_texture1d_desc (desc : resource_desc) : D3D11_TEXTURE1D_DESC :=
  let uc := convert_memory_heap_to_d3d_usage desc.heap 0 0
  { Width := desc.width
    MipLevels := desc.levels
    ArraySize := desc.depth_or_layers
    Format := convert_format_to_native desc.format
    Usage := uc.1
    CPUAccessFlags := uc.2
    BindFlags := convert_resource_usage_to_bind_flags desc.usage 0 }

/-- `convert_resource_desc(const api::resource_desc &, D3D11_TEXTURE2D_DESC &)`. -/
def convert_resource_desc_to_texture2d_desc (desc : resource_desc) : D3D11_TEXTURE2D_DESC :=
  let uc := convert_memory_heap_to_d3d_usage desc.heap 0 0
  { Width := desc.width
    Height := desc.height
    MipLevels := desc.levels
    ArraySize := desc.depth_or_layers
    Format := convert_format_to_native desc.format
    SampleCount := desc.samples
    Usage := uc.1
    CPUAccessFlags := uc.2
    BindFlags := convert_resource_usage_to_bind_flags desc.usage 0 }

/-- `convert_resource_desc(const api::resource_desc &, D3D11_TEXTURE3D_DESC &)`
(the source asserts `samples == 1`). -/
def convert_resource_desc_to_texture3d_desc (desc : resource_desc) : D3D11_TEXTURE3D_DESC :=
  let uc := convert_memory_heap_to_d3d_usage desc.heap 0 0
  { Width := desc.width
    Height := desc.height
    Depth := desc.depth_or_layers
    MipLevels := desc.levels
    Format := convert_format_to_native desc.format
    Usage := uc.1
    CPUAccessFlags := uc.2
    BindFlags := convert_resource_usage_to_bind_flags desc.usage 0 }

/-- `convert_resource_desc(const D3D11_BUFFER_DESC &)`: starts from a
value-initialised neutral descriptor. -/
def convert_buffer_desc_to_resource_desc (internal_desc : D3D11_BUFFER_DESC) : resource_desc :=
  { resource_desc.empty with
    type := .buffer
    size := internal_desc.ByteWidth
    heap := convert_d3d_usage_to_memory_heap internal_desc.Usage .unknown
    usage := convert_bind_flags_to_resource_usage internal_desc.BindFlags 0 }

/-- `convert_resource_desc(const D3D11_TEXTURE1D_DESC &)`: `ArraySize` and
`MipLevels` are `static_cast<uint16_t>` (the source asserts they fit). -/
def convert_texture1d_desc_to_resource_desc (internal_desc : D3D11_TEXTURE1D_DESC) :
    resource_desc :=
  { resource_desc.empty with
    type := .texture_1d
    width := internal_desc.Width
    height := 1
    depth_or_layers := internal_desc.ArraySize % 65536
    levels := internal_desc.MipLevels % 65536
    format := convert_format_to_api internal_desc.Format
    samples := 1
    heap := convert_d3d_usage_to_memory_heap internal_desc.Usage .unknown
    usage := convert_bind_flags_to_resource_usage internal_desc.BindFlags 0 }

/-- `convert_resource_desc(const D3D11_TEXTURE2D_DESC &)`: after the flag
conversion the source additionally ORs `resolve_source` (0x2000) when the
(already narrowed) sample count exceeds 1, else `resolve_dest` (0x1000). -/
def convert_texture2d_desc_to_resource_desc (internal_desc : D3D11_TEXTURE2D_DESC) :
    resource_desc :=
  let samples := internal_desc.SampleCount % 65536
  { resource_desc.empty with
    type := .texture_2d
    width := internal_desc.Width
    height := internal_desc.Height
    depth_or_layers := internal_desc.ArraySize % 65536
    levels := internal_desc.MipLevels % 65536
    format := convert_format_to_api internal_desc.Format
    samples := samples
    heap := convert_d3d_usage_to_memory_heap internal_desc.Usage .unknown
    usage := convert_bind_flags_to_resource_usage internal_desc.BindFlags 0 |||
      (if samples > 1 then 0x2000 else 0x1000) }

/-- `convert_resource_desc(const D3D11_TEXTURE3D_DESC &)`. -/
def convert_texture3d_desc_to_resource_desc (internal_desc : D3D11_TEXTURE3D_DESC) :
    resource_desc :=
  { resource_desc.empty with
    type := .texture_3d
    width := internal_desc.Width
    height := internal_desc.Height
    depth_or_layers := internal_desc.Depth % 65536
    levels := internal_desc.MipLevels % 65536
    format := convert_format_to_api internal_desc.Format
    samples := 1
    heap := convert_d3d_usage_to_memory_heap internal_desc.Usage .unknown
    usage := convert_bind_flags_to_resource_usage internal_desc.BindFlags 0 }

/-- Neutral → native → neutral round trip, pairing each supported resource
type with its native descriptor structure exactly as `create_resource` /
`get_resource_desc` do. Types without a native descriptor (`unknown`,
`surface`) fall through to the value-initialised descriptor. -/
def resource_desc_roundtrip (desc : resource_desc) : resource_desc :=
  match desc.type with
  | .buffer => convert_buffer_desc_to_resource_desc (convert_resource_desc_to_buffer_desc desc)
  | .texture_1d =>
    convert_texture1d_desc_to_resource_desc (convert_resource_desc_to_texture1d_desc desc)
  | .texture_2d =>
    convert_texture2d_desc_to_resource_desc (convert_resource_desc_to_texture2d_desc desc)
  | .texture_3d =>
    convert_texture3d_desc_to_resource_desc (convert_resource_desc_to_texture3d_desc desc)
  | _ => resource_desc.empty

/-- Usage masks that survive the D3D11 bind-flag round trip: only bits the
bind-flag conversion represents, both copy bits present (they are added
unconditionally on the way back), and the two multi-bit flags
(`depth_stencil` 0x30, `shader_resource` 0xC0) either fully present or fully
absent (a partial sub-flag widens to the full pair on the way back). -/
def usage_representable (u : Nat) : Bool :=
  (u &&& 0x8CFF == u) && (u &&& 0xC00 == 0xC00) &&
    ((u &&& 0x30 == 0) || (u &&& 0x30 == 0x30)) &&
    ((u &&& 0xC0 == 0) || (u &&& 0xC0 == 0xC0))

/-- Usage masks that survive the texture-2D round trip: additionally exactly
the resolve bit the back-conversion adds for this sample count must already
be present. -/
def usage_representable_tex2d (samples u : Nat) : Bool :=
  (u &&& 0xBCFF == u) &&
    (u &&& 0x3000 == (if samples > 1 then 0x2000 else 0x1000)) &&
    usage_representable (u &&& 0x8CFF)

theorem usage_roundtrip_cases : ∀ b30 b4 bC0 b8 b2 b1 b8000 : Bool,
    convert_bind_flags_to_resource_usage
      (convert_resource_usage_to_bind_flags
        (0xC00 ||| cond b30 0x30 0 ||| cond b4 0x4 0 ||| cond bC0 0xC0 0 |||
          cond b8 0x8 0 ||| cond b2 0x2 0 ||| cond b1 0x1 0 ||| cond b8000 0x8000 0) 0) 0 =
    0xC00 ||| cond b30 0x30 0 ||| cond b4 0x4 0 ||| cond bC0 0xC0 0 |||
      cond b8 0x8 0 ||| cond b2 0x2 0 ||| cond b1 0x1 0 ||| cond b8000 0x8000 0 := by
  decide

theorem land_single_bit_cases (u : Nat) (k : Nat) :
    u &&& 2 ^ k = cond (u.testBit k) (2 ^ k) 0 := by
  rw [Nat.and_two_pow]
  cases u.testBit k <;> simp

theorem usage_roundtrip (u : Nat) (h : usage_representable u = true) :
    convert_bind_flags_to_resource_usage
      (convert_resource_usage_to_bind_flags u 0) 0 = u := by
  unfold usage_representable at h
  simp only [Bool.and_eq_true, Bool.or_eq_true, beq_iff_eq] at h
  obtain ⟨⟨⟨hsub, hc⟩, h30⟩, hC0⟩ := h
  have h4 : u &&& 0x4 = cond (u.testBit 2) 0x4 0 := land_single_bit_cases u 2
  have h8 : u &&& 0x8 = cond (u.testBit 3) 0x8 0 := land_single_bit_cases u 3
  have h2 : u &&& 0x2 = cond (u.testBit 1) 0x2 0 := land_single_bit_cases u 1
  have h1 : u &&& 0x1 = cond (u.testBit 0) 0x1 0 := land_single_bit_cases u 0
  have h8000 : u &&& 0x8000 = cond (u.testBit 15) 0x8000 0 := land_single_bit_cases u 15
  have hdec : u = 0xC00 ||| (u &&& 0x30) ||| (u &&& 0x4) ||| (u &&& 0xC0) |||
      (u &&& 0x8) ||| (u &&& 0x2) ||| (u &&& 0x1) ||| (u &&& 0x8000) := by
    conv_lhs => rw [← hsub]
    rw [show (0x8CFF : Nat) = 0xC00 ||| 0x30 ||| 0x4 ||| 0xC0 ||| 0x8 ||| 0x2 ||| 0x1 ||| 0x8000
      from rfl]
    rw [Nat.and_or_distrib_left, Nat.and_or_distrib_left, Nat.and_or_distrib_left,
      Nat.and_or_distrib_left, Nat.and_or_distrib_left, Nat.and_or_distrib_left,
      Nat.and_or_distrib_left, hc]
  rw [h4, h8, h2, h1, h8000] at hdec
  rcases h30 with h30 | h30 <;> rcases hC0 with hC0 | hC0 <;> rw [h30, hC0] at hdec <;>
    rw [hdec] <;>
    first
    | exact usage_roundtrip_cases false (u.testBit 2) false (u.testBit 3)
        (u.testBit 1) (u.testBit 0) (u.testBit 15)
    | exact usage_roundtrip_cases false (u.testBit 2) true (u.testBit 3)
        (u.testBit 1) (u.testBit 0) (u.testBit 15)
    | exact usage_roundtrip_cases true (u.testBit 2) false (u.testBit 3)
        (u.testBit 1) (u.testBit 0) (u.testBit 15)
    | exact usage_roundtrip_cases true (u.testBit 2) true (u.testBit 3)
        (u.testBit 1) (u.testBit 0) (u.testBit 15)

theorem land_mask_absorb (u m c : Nat) (h : m &&& c = c) : (u &&& m) &&& c = u &&& c := by
  rw [Nat.land_assoc, h]

theorem usage_to_bind_flags_masked (u : Nat) :
    convert_resource_usage_to_bind_flags (u &&& 0x8CFF) 0 =
    convert_resource_usage_to_bind_flags u 0 := by
  unfold convert_resource_usage_to_bind_flags
  rw [land_mask_absorb u 0x8CFF 0x4 rfl, land_mask_absorb u 0x8CFF 0x30 rfl,
    land_mask_absorb u 0x8CFF 0xC0 rfl, land_mask_absorb u 0x8CFF 0x8 rfl,
    land_mask_absorb u 0x8CFF 0x2 rfl, land_mask_absorb u 0x8CFF 0x1 rfl,
    land_mask_absorb u 0x8CFF 0x8000 rfl]

theorem usage_roundtrip_tex2d (samples u : Nat)
    (h : usage_representable_tex2d samples u = true) :
    convert_bind_flags_to_resource_usage
        (convert_resource_usage_to_bind_flags u 0) 0 |||
      (if samples > 1 then 0x2000 else 0x1000) = u := by
  unfold usage_representable_tex2d at h
  simp only [Bool.and_eq_true, beq_iff_eq] at h
  obtain ⟨⟨hsub, hrb⟩, hrep⟩ := h
  rw [← usage_to_bind_flags_masked u, usage_roundtrip _ hrep, ← hrb]
  rw [← Nat.and_or_distrib_left]
  rw [show (0x8CFF : Nat) ||| 0x3000 = 0xBCFF from rfl]
  exact hsub

end d3d11

/-! ## D3D10 device implementation (`d3d10_impl_device.cpp`)

The `reshade::api` declarations this file consumes (`descriptor_type`,
`resource_flags`, `pipeline_layout_param`, `device_caps`, …) live in API
headers that are not part of the sources; they are ordinary flag/enum
declarations, so they are modelled below with exactly the distinctions the
D3D10 implementation code inspects. -/

namespace d3d10

/-- `api::descriptor_type`: the D3D10 code distinguishes samplers,
shader-resource views and constant buffers; every other enumerator takes the
`default:` branches (all marked `assert(false)`), collapsed into `other`. -/
inductive DescriptorType where
  | sampler
  | shader_resource_view
  | constant_buffer
  | other
deriving DecidableEq

/-- `api::shader_stage` visibility masks and register/binding indices are
32-bit values; `api::descriptor_range` with the fields
`create_pipeline_layout` reads and writes. -/
structure descriptor_range where
  binding : Nat
  dx_register_index : Nat
  dx_register_space : Nat
  count : Nat
  array_size : Nat
  type : DescriptorType
  visibility : Nat
deriving DecidableEq

/-- Value initialisation of `api::descriptor_range` (numeric fields zero;
the zero enumerator of `descriptor_type` is the sampler type). -/
def descriptor_range.empty : descriptor_range :=
  { binding := 0, dx_register_index := 0, dx_register_space := 0, count := 0,
    array_size := 0, type := .sampler, visibility := 0 }

/-- `api::pipeline_layout_param`: a tagged union over the three
`pipeline_layout_param_type` cases; `descriptor_set` carries its
`count`-element range array as a list. -/
inductive pipeline_layout_param where
  | descriptor_set (ranges : List descriptor_range)
  | push_descriptors (range : descriptor_range)
  | push_constants (dx_register_index dx_register_space : Nat)
deriving DecidableEq

/-- 32-bit unsigned subtraction `a - b` as the C++ code computes it on
`uint32_t` operands (well-defined for `a b < 2^32`). -/
def uint32_sub (a b : Nat) : Nat := (a + 4294967296 - b) % 4294967296

/-- The `for (uint32_t k = 1; ...)` merge loop of `create_pipeline_layout`:
folds each further range of the set into `merged_range`, returning `none`
where the C++ code returns `false`. Counts are accumulated with 32-bit
wrap-around, visibility is OR-merged. -/
def merge_ranges (merged : descriptor_range) : List descriptor_range → Option descriptor_range
  | [] => some merged
  | range :: rest =>
    if range.type ≠ merged.type ∨ range.array_size > 1 ∨
        range.dx_register_space ≠ merged.dx_register_space then none
    else if range.binding ≥ merged.binding then
      let distance := range.binding - merged.binding
      if uint32_sub range.dx_register_index merged.dx_register_index ≠ distance then none
      else merge_ranges
        { merged with
          count := (merged.count + distance) % 4294967296,
          visibility := merged.visibility ||| range.visibility } rest
    else
      let distance := merged.binding - range.binding
      if uint32_sub merged.dx_register_index range.dx_register_index ≠ distance then none
      else merge_ranges
        { merged with
          binding := range.binding,
          dx_register_index := range.dx_register_index,
          count := (merged.count + distance) % 4294967296,
          visibility := merged.visibility ||| range.visibility } rest

/-- The per-parameter body of the `create_pipeline_layout` loop (one
iteration of `for (uint32_t i = 0; i < param_count; ++i)`), producing the
merged range written into `ranges[i]`, or `none` where the call fails. -/
def merge_layout_param : pipeline_layout_param → Option descriptor_range
  | .descriptor_set [] => none
  | .descriptor_set (r0 :: rest) =>
    if r0.array_size > 1 ∨ r0.dx_register_space ≠ 0 then none
    else merge_ranges r0 rest
  | .push_descriptors range =>
    if range.dx_register_space ≠ 0 then none else some range
  | .push_constants dx_register_index dx_register_space =>
    if dx_register_space ≠ 0 then none
    else some
      { descriptor_range.empty with
        dx_register_index := dx_register_index,
        dx_register_space := dx_register_space }

/-- `device_impl::create_pipeline_layout`: `*out_handle = { 0 }` up front;
any failing parameter makes the whole call return `false` with the handle
still zero (modelled `none`); on success a `pipeline_layout_impl` holding the
merged ranges is allocated and its (non-zero) address returned (modelled
`some ranges`). -/
def create_pipeline_layout : List pipeline_layout_param → Option (List descriptor_range)
  | [] => some []
  | p :: rest =>
    match merge_layout_param p with
    | none => none
    | some r =>
      match create_pipeline_layout rest with
      | none => none
      | some rs => some (r :: rs)

/-- `api::resource_flags`: of the flag bits only `shared` and
`shared_nt_handle` are inspected by `create_resource`. -/
structure resource_flags where
  shared : Bool
  shared_nt_handle : Bool
deriving DecidableEq

/-- The native D3D10 calls `create_resource` can reach. -/
inductive native_call where
  | open_shared_resource
  | create_buffer
  | create_texture_1d
  | create_texture_2d
  | create_texture_3d
deriving DecidableEq

/-- Driver-side outcomes abstracting the `ID3D10Device` calls:
success flags of the native create/open calls, the (non-null COM pointer)
objects they return, and whether `GetSharedHandle` succeeds. -/
structure native_env where
  create_ok : Bool
  created_object : Nat
  open_ok : Bool
  opened_object : Nat
  get_shared_ok : Bool
deriving DecidableEq

/-- Result of a create-style operation: the returned `bool`, the final value
of `*out_handle`, and the native calls that were made. -/
structure create_result where
  success : Bool
  out_handle : Nat
  calls : List native_call
deriving DecidableEq

/-- One `case` body of the `create_resource` switch: native create, then for
shared resources the `get_shared_resource` export (whose failure `break`s out
with the handle still zero). -/
def create_native_resource (c : native_call) (is_shared : Bool) (env : native_env) :
    create_result :=
  if env.create_ok then
    if is_shared && !env.get_shared_ok then
      { success := false, out_handle := 0, calls := [c] }
    else
      { success := true, out_handle := env.created_object, calls := [c] }
  else
    { success := false, out_handle := 0, calls := [c] }

/-- `device_impl::create_resource`. `shared_handle` models the `HANDLE *`
argument: `none` is a null pointer, `some v` points at a `HANDLE` of value
`v` (`0` = `nullptr`). `*out_handle = { 0 }` happens first; the shared/NT
check rejects before any native call. -/
def create_resource (ty : ResourceType) (flags : resource_flags)
    (shared_handle : Option Nat) (env : native_env) : create_result :=
  let is_shared := flags.shared
  if is_shared && (shared_handle.isNone || flags.shared_nt_handle) then
    { success := false, out_handle := 0, calls := [] }
  else if is_shared && (shared_handle.getD 0 != 0) then
    if env.open_ok then
      { success := true, out_handle := env.opened_object,
        calls := [.open_shared_resource] }
    else
      { success := false, out_handle := 0, calls := [.open_shared_resource] }
  else
    match ty with
    | .buffer => create_native_resource .create_buffer is_shared env
    | .texture_1d => create_native_resource .create_texture_1d is_shared env
    | .texture_2d => create_native_resource .create_texture_2d is_shared env
    | .texture_3d => create_native_resource .create_texture_3d is_shared env
    | _ => { success := false, out_handle := 0, calls := [] }

/-- `api::device_caps`, with every enumerator named in the
`check_capability` switch; enumerators not named there take the `default:`
branch, collapsed into `other_cap`. -/
inductive device_caps where
  | compute_shader
  | geometry_shader
  | hull_and_domain_shader
  | logic_op
  | dual_source_blend
  | independent_blend
  | fill_mode_non_solid
  | conservative_rasterization
  | bind_render_targets_and_depth_stencil
  | multi_viewport
  | partial_push_constant_updates
  | partial_push_descriptor_updates
  | draw_instanced
  | draw_or_dispatch_indirect
  | copy_buffer_region
  | copy_buffer_to_texture
  | blit
  | resolve_region
  | copy_query_pool_results
  | sampler_compare
  | sampler_anisotropic
  | sampler_with_resource_view
  | shared_resource
  | shared_resource_nt_handle
  | other_cap
deriving DecidableEq

/-- `device_impl::check_capability`; `feature_level` is the numeric
`D3D_FEATURE_LEVEL` of the wrapped device (`D3D_FEATURE_LEVEL_10_0` is
0xa000). `shared_resource_nt_handle` shares the `default: return false`
branch. -/
def check_capability (feature_level : Nat) : device_caps → Bool
  | .compute_shader => false
  | .geometry_shader => feature_level ≥ 0xa000
  | .hull_and_domain_shader => false
  | .logic_op => false
  | .dual_source_blend => true
  | .independent_blend => true
  | .fill_mode_non_solid => true
  | .conservative_rasterization => false
  | .bind_render_targets_and_depth_stencil => true
  | .multi_viewport => true
  | .partial_push_constant_updates => false
  | .partial_push_descriptor_updates => true
  | .draw_instanced => true
  | .draw_or_dispatch_indirect => false
  | .copy_buffer_region => true
  | .copy_buffer_to_texture => false
  | .blit => false
  | .resolve_region => false
  | .copy_query_pool_results => false
  | .sampler_compare => true
  | .sampler_anisotropic => true
  | .sampler_with_resource_view => false
  | .shared_resource => true
  | .shared_resource_nt_handle => false
  | .other_cap => false

/-- `pipeline_layout_impl`: retains the merged descriptor ranges. -/
structure pipeline_layout_impl where
  ranges : List descriptor_range
deriving DecidableEq

/-- `descriptor_set_impl`: a flat, type-homogeneous `std::vector<uint64_t>`
plus its descriptor type and slot count. -/
structure descriptor_set_impl where
  type : DescriptorType
  count : Nat
  descriptors : List Nat
deriving DecidableEq

/-- The per-set body of `allocate_descriptor_sets`: a fresh
`descriptor_set_impl` whose vector is resized to `count * 1` elements for
samplers and shader-resource views and `count * 3` for constant buffers; the
`default:` branch (`assert(false)`) leaves the fresh vector empty. -/
def allocate_one_descriptor_set (range : descriptor_range) : descriptor_set_impl :=
  let n := match range.type with
    | .sampler => range.count * 1
    | .shader_resource_view => range.count * 1
    | .constant_buffer => range.count * 3
    | .other => 0
  { type := range.type, count := range.count, descriptors := List.replicate n 0 }

/-- `device_impl::allocate_descriptor_sets`: a null layout handle zeroes all
output sets and returns `false` (modelled `none`); otherwise each of the
`count` output sets is allocated from `layout_impl->ranges[layout_param]`
(the vector read is modelled with `getD`; all in-source callers pass an
in-bounds parameter index). -/
def allocate_descriptor_sets (count : Nat) (layout : Option pipeline_layout_impl)
    (layout_param : Nat) : Option (List descriptor_set_impl) :=
  match layout with
  | some layout_impl =>
    some (List.replicate count
      (allocate_one_descriptor_set
        (layout_impl.ranges.getD layout_param descriptor_range.empty)))
  | none => none

/-- The claimed per-type element stride of the flat descriptor array (the
claim defines it for the three supported types only). -/
def descriptor_type_stride : DescriptorType → Nat
  | .constant_buffer => 3
  | _ => 1

/-- `device_impl::create_sampler`: `native_ok` abstracts
`SUCCEEDED(CreateSamplerState(...))` and `native_object` the released COM
pointer; on failure the out-handle is written `{ 0 }`. -/
def create_sampler (native_ok : Bool) (native_object : Nat) : Bool × Nat :=
  if native_ok then (true, native_object) else (false, 0)

/-- `device_impl::create_resource_view`: `*out_handle = { 0 }` first; a null
resource fails; the switch accepts exactly the usage values
`depth_stencil` (0x30), `render_target` (0x4) and `shader_resource` (0xC0),
each branch creating one native view. -/
def create_resource_view (resource : Nat) (usage_type : Nat)
    (native_ok : Bool) (native_object : Nat) : Bool × Nat :=
  if resource = 0 then (false, 0)
  else if usage_type = 0x30 then
    if native_ok then (true, native_object) else (false, 0)
  else if usage_type = 0x4 then
    if native_ok then (true, native_object) else (false, 0)
  else if usage_type = 0xC0 then
    if native_ok then (true, native_object) else (false, 0)
  else (false, 0)

/-- `api::pipeline_stage` as switched on by `create_pipeline`; enumerators
outside the switch collapse into `other_stage` (the `default:` branch). -/
inductive pipeline_stage where
  | all_graphics
  | input_assembler
  | vertex_shader
  | geometry_shader
  | pixel_shader
  | rasterizer
  | depth_stencil
  | output_merger
  | other_stage
deriving DecidableEq

/-- `api::dynamic_state`: the only accepted value is
`primitive_topology`; all others collapse into `other_state`. -/
inductive dynamic_state where
  | primitive_topology
  | other_state
deriving DecidableEq

/-- The `api::pipeline_desc` fields `create_pipeline` /
`create_graphics_pipeline` branch on (`topology == triangle_fan` is kept as a
Boolean since only that comparison is made). -/
structure pipeline_desc where
  type : pipeline_stage
  vertex_shader_code_size : Nat
  hull_shader_code_size : Nat
  domain_shader_code_size : Nat
  geometry_shader_code_size : Nat
  pixel_shader_code_size : Nat
  conservative_rasterization : Bool
  logic_op_enable0 : Bool
  topology_is_triangle_fan : Bool
deriving DecidableEq

/-- Driver-side outcomes of the pipeline sub-object creations:
per-sub-object success flags and released COM pointers, whether the converted
input-element list is empty, and the address of the `new pipeline_impl`
(stored with its low tag bit set; the allocation is 2-aligned). -/
structure pipeline_env where
  vs_ok : Bool
  gs_ok : Bool
  ps_ok : Bool
  il_empty : Bool
  il_ok : Bool
  blend_ok : Bool
  rast_ok : Bool
  ds_ok : Bool
  vs_object : Nat
  gs_object : Nat
  ps_object : Nat
  il_object : Nat
  blend_object : Nat
  rast_object : Nat
  ds_object : Nat
  impl_addr : Nat
deriving DecidableEq

/-- `device_impl::create_vertex_shader`. -/
def create_vertex_shader (env : pipeline_env) : Bool × Nat :=
  if env.vs_ok then (true, env.vs_object) else (false, 0)

/-- `device_impl::create_geometry_shader`. -/
def create_geometry_shader (env : pipeline_env) : Bool × Nat :=
  if env.gs_ok then (true, env.gs_object) else (false, 0)

/-- `device_impl::create_pixel_shader`. -/
def create_pixel_shader (env : pipeline_env) : Bool × Nat :=
  if env.ps_ok then (true, env.ps_object) else (false, 0)

/-- `device_impl::create_input_layout`: an empty input layout is valid and
returns success with a null (zero) handle without a native call. -/
def create_input_layout (env : pipeline_env) : Bool × Nat :=
  if env.il_empty then (true, 0)
  else if env.il_ok then (true, env.il_object)
  else (false, 0)

/-- `device_impl::create_blend_state`. -/
def create_blend_state (env : pipeline_env) : Bool × Nat :=
  if env.blend_ok then (true, env.blend_object) else (false, 0)

/-- `device_impl::create_rasterizer_state`. -/
def create_rasterizer_state (env : pipeline_env) : Bool × Nat :=
  if env.rast_ok then (true, env.rast_object) else (false, 0)

/-- `device_impl::create_depth_stencil_state`. -/
def create_depth_stencil_state (env : pipeline_env) : Bool × Nat :=
  if env.ds_ok then (true, env.ds_object) else (false, 0)

/-- `device_impl::create_graphics_pipeline`: `*out_handle = { 0 }` first;
unsupported features fail; each `create_state_object` use fails the whole
call when its condition holds and the sub-create fails; on success the
`pipeline_impl` address is tagged with the low bit
(`reinterpret_cast<uintptr_t>(impl) | 1`, the address being even). -/
def create_graphics_pipeline (desc : pipeline_desc) (env : pipeline_env) : Bool × Nat :=
  if desc.hull_shader_code_size ≠ 0 ∨ desc.domain_shader_code_size ≠ 0 ∨
      desc.conservative_rasterization = true ∨ desc.logic_op_enable0 = true ∨
      desc.topology_is_triangle_fan = true then (false, 0)
  else if desc.vertex_shader_code_size ≠ 0 ∧ (create_vertex_shader env).1 = false then (false, 0)
  else if desc.geometry_shader_code_size ≠ 0 ∧ (create_geometry_shader env).1 = false then
    (false, 0)
  else if desc.pixel_shader_code_size ≠ 0 ∧ (create_pixel_shader env).1 = false then (false, 0)
  else if (create_input_layout env).1 = false then (false, 0)
  else if (create_blend_state env).1 = false then (false, 0)
  else if (create_rasterizer_state env).1 = false then (false, 0)
  else if (create_depth_stencil_state env).1 = false then (false, 0)
  else (true, 2 * env.impl_addr + 1)

/-- `device_impl::create_pipeline`: `*out_handle = { 0 }` first; any dynamic
state other than `primitive_topology` fails; otherwise dispatch on the
pipeline stage (the `default:` branch fails). -/
def create_pipeline (desc : pipeline_desc) (dynamic_states : List dynamic_state)
    (env : pipeline_env) : Bool × Nat :=
  if ∀ s ∈ dynamic_states, s = dynamic_state.primitive_topology then
    match desc.type with
    | .all_graphics => create_graphics_pipeline desc env
    | .input_assembler => create_input_layout env
    | .vertex_shader => create_vertex_shader env
    | .geometry_shader => create_geometry_shader env
    | .pixel_shader => create_pixel_shader env
    | .rasterizer => create_rasterizer_state env
    | .depth_stencil => create_depth_stencil_state env
    | .output_merger => create_blend_state env
    | .other_stage => (false, 0)
  else (false, 0)

/-- `device_impl::create_query_pool`: one native `CreateQuery` per slot
(`query_ok i` abstracts slot `i` succeeding); the first failure deletes the
pool and returns `false` with a zero handle, otherwise the (non-null)
`query_pool_impl` address is returned. -/
def create_query_pool (size : Nat) (query_ok : Nat → Bool) (impl_addr : Nat) : Bool × Nat :=
  if (List.range size).all (fun i => query_ok i) then (true, impl_addr) else (false, 0)

/-- The externally observable effect of a destroy operation: nothing, a COM
`Release()` on the native object, or a `delete` of an abstraction-owned
side-record. -/
inductive destroy_action where
  | noop
  | release (handle : Nat)
  | delete_impl (addr : Nat)
deriving DecidableEq

/-- `device_impl::destroy_sampler`: releases only non-zero handles. -/
def destroy_sampler (handle : Nat) : destroy_action :=
  if handle ≠ 0 then .release handle else .noop

/-- `device_impl::destroy_resource`: releases only non-zero handles. -/
def destroy_resource (handle : Nat) : destroy_action :=
  if handle ≠ 0 then .release handle else .noop

/-- `device_impl::destroy_resource_view`: releases only non-zero handles. -/
def destroy_resource_view (handle : Nat) : destroy_action :=
  if handle ≠ 0 then .release handle else .noop

/-- `device_impl::destroy_pipeline`: a low tag bit marks an
abstraction-owned `pipeline_impl` record which is deleted (after clearing
the bit); otherwise non-zero handles are released and zero is a no-op. -/
def destroy_pipeline (handle : Nat) : destroy_action :=
  if handle &&& 1 ≠ 0 then .delete_impl (handle ^^^ 1)
  else if handle ≠ 0 then .release handle
  else .noop

end d3d10

/-! ## Vulkan interception layer (`vulkan_hooks_device.cpp`) -/

namespace vk

/-- The extra device extensions `vkCreateDevice` may enable on top of the
application request. -/
inductive vk_extension where
  | khr_push_descriptor
  | khr_image_format_list
  | khr_swapchain_mutable_format
  | ext_debug_marker
deriving DecidableEq

/-- Driver-side environment of a `vkCreateDevice` call: which extra
extensions `EnumerateDeviceExtensionProperties` reports as available, and the
`VkResult` the next-in-chain (trampoline) `vkCreateDevice` returns
(`VK_SUCCESS` is 0, error codes are non-zero). -/
structure vk_device_env where
  extension_supported : vk_extension → Bool
  trampoline_result : Int

/-- Application-side inputs of a `vkCreateDevice` call, reduced to the
predicates the hook branches on. -/
structure vk_create_device_input where
  has_trampoline : Bool
  requests_swapchain : Bool
  has_graphics_queue : Bool
  debug_build : Bool
deriving DecidableEq

/-- Observable outcome of the hooked `vkCreateDevice`: the returned
`VkResult`, whether the registered `device_impl` keeps a usable graphics
queue family index (`_graphics_queue_family_index != uint32 max`, i.e.
ReShade will run on this device), the extra extensions added to the create
info, and whether a `device_impl` was registered in `g_vulkan_devices`. -/
structure vk_create_device_result where
  result : Int
  reshade_enabled : Bool
  extra_extensions : List vk_extension
  device_registered : Bool

/-- The `add_extension` lambda of `vkCreateDevice`, acting on the state
(graphics-queue-family-index still valid, extensions enabled so far): a
supported extension is appended; an unsupported *required* extension resets
the queue family index to the sentinel (preventing ReShade initialisation);
an unsupported optional extension only logs a warning. -/
def add_extension (env : vk_device_env) (ext : vk_extension) (required : Bool)
    (st : Bool × List vk_extension) : Bool × List vk_extension :=
  if env.extension_supported ext then (st.1, st.2 ++ [ext])
  else if required then (false, st.2)
  else (st.1, st.2)

/-- The hooked `vkCreateDevice`. An unresolvable trampoline returns
`VK_ERROR_INITIALIZATION_FAILED` (-3) immediately. The extension block runs
only when the device is created with the swapchain extension and a graphics
queue; it then adds `VK_KHR_push_descriptor` (optional),
`VK_KHR_image_format_list` (required), `VK_KHR_swapchain_mutable_format`
(required) and, in debug builds, `VK_EXT_debug_marker` (optional). The
trampoline is always called afterwards and a native failure is propagated
unmodified; on native success the `device_impl` (carrying the possibly
reset queue family index) is registered. -/
def vkCreateDevice (inp : vk_create_device_input) (env : vk_device_env) :
    vk_create_device_result :=
  if inp.has_trampoline = false then
    { result := -3, reshade_enabled := false, extra_extensions := [],
      device_registered := false }
  else
    let st0 : Bool × List vk_extension :=
      (inp.requests_swapchain && inp.has_graphics_queue, [])
    let st :=
      if inp.requests_swapchain && inp.has_graphics_queue then
        let st1 := add_extension env .khr_push_descriptor false st0
        let st2 := add_extension env .khr_image_format_list true st1
        let st3 := add_extension env .khr_swapchain_mutable_format true st2
        if inp.debug_build then add_extension env .ext_debug_marker false st3 else st3
      else st0
    if env.trampoline_result ≠ 0 then
      { result := env.trampoline_result, reshade_enabled := false,
        extra_extensions := st.2, device_registered := false }
    else
      { result := 0, reshade_enabled := st.1, extra_extensions := st.2,
        device_registered := true }

/-- Observable events of the destruction hooks, in program order:
removals from the lock-free registry tables, deletion of abstraction-owned
wrapper records, and the call through to the native trampoline. -/
inductive vk_event where
  | unregister_buffer (buffer : Nat)
  | erase_command_buffer (command_buffer : Nat)
  | clear_command_buffers
  | erase_device (dispatch_key : Nat)
  | erase_queue (queue : Nat)
  | delete_wrapper
  | call_trampoline
deriving DecidableEq

/-- Events that remove an entry (or all entries) from a registry table. -/
def isRegistryRemoval : vk_event → Bool
  | .unregister_buffer _ => true
  | .erase_command_buffer _ => true
  | .clear_command_buffers => true
  | .erase_device _ => true
  | .erase_queue _ => true
  | _ => false

/-- Event trace of `vkDestroyBuffer`: the buffer is unregistered from the
device registry, then the native `DestroyBuffer` trampoline runs. -/
def vkDestroyBuffer_trace (buffer : Nat) : List vk_event :=
  [.unregister_buffer buffer, .call_trampoline]

/-- Event trace of `vkFreeCommandBuffers`: each command buffer is erased
from `s_vulkan_command_buffers` (and its wrapper deleted), then the native
`FreeCommandBuffers` trampoline runs. -/
def vkFreeCommandBuffers_trace (command_buffers : List Nat) : List vk_event :=
  command_buffers.map (fun cb => .erase_command_buffer cb) ++ [.call_trampoline]

/-- Event trace of `vkDestroyDevice`: the command-buffer table is cleared,
the device is erased from `g_vulkan_devices`, each queue is erased from
`s_vulkan_queues` and its wrapper deleted, the `device_impl` is deleted, and
only then the native `DestroyDevice` trampoline runs. -/
def vkDestroyDevice_trace (dispatch_key : Nat) (queues : List Nat) : List vk_event :=
  vk_event.clear_command_buffers :: vk_event.erase_device dispatch_key ::
    (queues.map (fun q => [vk_event.erase_queue q, vk_event.delete_wrapper])).flatten ++
      [vk_event.delete_wrapper, vk_event.call_trampoline]

/-- A trace in which every registry removal happens strictly before every
call into the native trampoline. -/
def removals_precede_trampoline (t : List vk_event) : Prop :=
  ∀ i j, (hi : i < t.length) → (hj : j < t.length) →
    isRegistryRemoval (t.get ⟨i, hi⟩) = true →
    t.get ⟨j, hj⟩ = vk_event.call_trampoline → i < j

theorem removals_precede_trampoline_of_shape (pre : List vk_event)
    (hpre : ∀ e ∈ pre, e ≠ vk_event.call_trampoline) :
    removals_precede_trampoline (pre ++ [vk_event.call_trampoline]) := by
  intro i j hi hj hrem htr
  have hlen : (pre ++ [vk_event.call_trampoline]).length = pre.length + 1 := by
    simp
  have hj2 : j = pre.length := by
    by_contra hne
    have hjlt : j < pre.length := by
      rw [hlen] at hj
      omega
    have : (pre ++ [vk_event.call_trampoline]).get ⟨j, hj⟩ = pre.get ⟨j, hjlt⟩ := by
      simp [List.get_eq_getElem, List.getElem_append_left hjlt]
    rw [this] at htr
    exact hpre _ (pre.get_mem _ _) htr
  have hi2 : i ≠ pre.length := by
    intro heq
    have : (pre ++ [vk_event.call_trampoline]).get ⟨i, hi⟩ = vk_event.call_trampoline := by
      subst heq
      simp [List.get_eq_getElem]
    rw [this] at hrem
    simp [isRegistryRemoval] at hrem
  rw [hlen] at hi
  omega

end vk

/-! ## Claim theorems -/

namespace d3d11

/-- Claim C1, counterexample: the round trip does not preserve every
represented field. A plain buffer descriptor placed in the `cpu_only` heap
comes back in the `gpu_to_cpu` heap, because both heaps map to
`D3D11_USAGE_STAGING` and the back-conversion picks `gpu_to_cpu`. -/
def roundtrip_cpu_only_desc : resource_desc :=
  { resource_desc.empty with
    type := .buffer, size := 16, heap := .cpu_only, usage := 0xC00 }

theorem resource_desc_roundtrip_cpu_only_cex :
    ¬ (resource_desc_roundtrip roundtrip_cpu_only_desc).fields_agree
        roundtrip_cpu_only_desc ∧
    (resource_desc_roundtrip roundtrip_cpu_only_desc).heap = MemoryHeap.gpu_to_cpu ∧
    roundtrip_cpu_only_desc.heap = MemoryHeap.cpu_only := by
  decide

/-- Claim C1 (amended): the neutral → native → neutral round trip preserves
every represented field (type, buffer size or the texture fields, heap,
usage) for every descriptor of a supported resource type whose heap is one
the native `D3D11_USAGE` can represent distinctly (`cpu_only` also maps to
STAGING and comes back as `gpu_to_cpu`), whose format value is a DXGI value
(< 1000), whose usage mask survives the bind-flag conversion
(`usage_representable`, for 2D textures additionally carrying exactly the
resolve flag the read-back adds), and whose numeric fields fit the native /
neutral integer widths they are cast through. -/
theorem resource_desc_roundtrip_on_representable (d : resource_desc)
    (htype : d.type = ResourceType.buffer ∨ d.type = ResourceType.texture_1d ∨
      d.type = ResourceType.texture_2d ∨ d.type = ResourceType.texture_3d)
    (hheap : d.heap = MemoryHeap.gpu_only ∨ d.heap = MemoryHeap.cpu_to_gpu ∨
      d.heap = MemoryHeap.gpu_to_cpu)
    (hformat : d.format < 1000)
    (husage : d.type ≠ ResourceType.texture_2d → usage_representable d.usage = true)
    (husage2d : d.type = ResourceType.texture_2d →
      usage_representable_tex2d d.samples d.usage = true)
    (hsize : d.size < 4294967296)
    (hdl : d.depth_or_layers < 65536) (hlv : d.levels < 65536) (hsm : d.samples < 65536)
    (h1d : d.type = ResourceType.texture_1d → d.height = 1 ∧ d.samples = 1)
    (h3d : d.type = ResourceType.texture_3d → d.samples = 1) :
    (resource_desc_roundtrip d).fields_agree d := by
  have hfmt : ¬ d.format ≥ 1000 := by omega
  rcases htype with ht | ht | ht | ht
  · -- buffer
    have hu := usage_roundtrip d.usage (husage (by rw [ht]; intro h; cases h))
    rcases hheap with hh | hh | hh <;>
      simp [resource_desc_roundtrip, ht, resource_desc.fields_agree,
        convert_buffer_desc_to_resource_desc, convert_resource_desc_to_buffer_desc,
        convert_memory_heap_to_d3d_usage, convert_d3d_usage_to_memory_heap,
        resource_desc.empty, hh, hu, Nat.mod_eq_of_lt hsize]
  · -- texture_1d
    have hu := usage_roundtrip d.usage (husage (by rw [ht]; intro h; cases h))
    obtain ⟨hht, hsmp⟩ := h1d ht
    rcases hheap with hh | hh | hh <;>
      simp [resource_desc_roundtrip, ht, resource_desc.fields_agree,
        convert_texture1d_desc_to_resource_desc, convert_resource_desc_to_texture1d_desc,
        convert_memory_heap_to_d3d_usage, convert_d3d_usage_to_memory_heap,
        convert_format_to_native, convert_format_to_api, hfmt,
        resource_desc.empty, hh, hu, hht, hsmp,
        Nat.mod_eq_of_lt hdl, Nat.mod_eq_of_lt hlv]
  · -- texture_2d
    have hu := usage_roundtrip_tex2d d.samples d.usage (husage2d ht)
    rcases hheap with hh | hh | hh <;>
      simp [resource_desc_roundtrip, ht, resource_desc.fields_agree,
        convert_texture2d_desc_to_resource_desc, convert_resource_desc_to_texture2d_desc,
        convert_memory_heap_to_d3d_usage, convert_d3d_usage_to_memory_heap,
        convert_format_to_native, convert_format_to_api, hfmt,
        resource_desc.empty, hh, hu,
        Nat.mod_eq_of_lt hdl, Nat.mod_eq_of_lt hlv, Nat.mod_eq_of_lt hsm]
  · -- texture_3d
    have hu := usage_roundtrip d.usage (husage (by rw [ht]; intro h; cases h))
    have hsmp := h3d ht
    rcases hheap with hh | hh | hh <;>
      simp [resource_desc_roundtrip, ht, resource_desc.fields_agree,
        convert_texture3d_desc_to_resource_desc, convert_resource_desc_to_texture3d_desc,
        convert_memory_heap_to_d3d_usage, convert_d3d_usage_to_memory_heap,
        convert_format_to_native, convert_format_to_api, hfmt,
        resource_desc.empty, hh, hu, hsmp,
        Nat.mod_eq_of_lt hdl, Nat.mod_eq_of_lt hlv]

/-- The resource-creation scenario of the specification: a 256×256, 1-mip,
single-sampled 2D texture in GPU-only memory with shader-resource usage
(plus the copy and resolve capabilities the backend always reports). -/
def roundtrip_witness_desc : resource_desc :=
  { resource_desc.empty with
    type := .texture_2d, width := 256, height := 256, depth_or_layers := 1,
    levels := 1, format := 28, samples := 1, heap := .gpu_only, usage := 0x1CC0 }

theorem resource_desc_roundtrip_witness :
    (resource_desc_roundtrip roundtrip_witness_desc).fields_agree
      roundtrip_witness_desc :=
  resource_desc_roundtrip_on_representable roundtrip_witness_desc
    (by decide) (by decide) (by decide) (by decide) (by decide) (by decide)
    (by decide) (by decide) (by decide) (by decide) (by decide)

theorem natSubset_set_flag_if {u v : Nat} {c d : Bool} (bits : Nat)
    (huv : NatSubset u v) (hcd : c = true → d = true) :
    NatSubset (set_flag_if c u bits) (set_flag_if d v bits) := by
  unfold set_flag_if
  cases hc : c
  · cases hd : d
    · simpa using huv
    · simp only [if_true, Bool.false_eq_true, if_false]
      exact natSubset_trans huv (natSubset_lor_left v bits)
  · rw [hcd hc]
    simp only [if_true]
    exact natSubset_lor_elim (natSubset_trans huv (natSubset_lor_left v bits))
      (natSubset_lor_right v bits)

theorem natSubset_le_set_flag_if {x u : Nat} (c : Bool) (bits : Nat)
    (h : NatSubset x u) : NatSubset x (set_flag_if c u bits) := by
  unfold set_flag_if
  cases c
  · simpa using h
  · simp only [if_true]
    exact natSubset_trans h (natSubset_lor_left u bits)

theorem bind_test_mono {a b : Nat} (hab : NatSubset a b) (m : Nat) :
    (a &&& m != 0) = true → (b &&& m != 0) = true := by
  intro h
  rw [bne_iff_ne] at h ⊢
  exact natSubset_land_ne_zero hab h

/-- Claim C2: converting native bind flags to the neutral usage set is
monotonic with respect to bit-set inclusion of the native flags, and for
every input the result contains the unconditionally added
`copy_dest | copy_source` bits (0xC00). -/
theorem bind_flags_conversion_monotone (a b usage0 : Nat) (hab : NatSubset a b) :
    NatSubset (convert_bind_flags_to_resource_usage a usage0)
      (convert_bind_flags_to_resource_usage b usage0) ∧
    NatSubset 0xC00 (convert_bind_flags_to_resource_usage a usage0) := by
  constructor
  · simp only [convert_bind_flags_to_resource_usage]
    exact natSubset_set_flag_if _
      (natSubset_set_flag_if _
        (natSubset_set_flag_if _
          (natSubset_set_flag_if _
            (natSubset_set_flag_if _
              (natSubset_set_flag_if _
                (natSubset_set_flag_if _ (fun i h => h) (bind_test_mono hab _))
                (bind_test_mono hab _))
              (bind_test_mono hab _))
            (bind_test_mono hab _))
          (bind_test_mono hab _))
        (bind_test_mono hab _))
      (bind_test_mono hab _)
  · simp only [convert_bind_flags_to_resource_usage]
    refine natSubset_le_set_flag_if _ _ (natSubset_le_set_flag_if _ _
      (natSubset_le_set_flag_if _ _ (natSubset_le_set_flag_if _ _
        (natSubset_le_set_flag_if _ _ (natSubset_le_set_flag_if _ _
          (natSubset_le_set_flag_if _ _ ?_))))))
    exact natSubset_lor_right usage0 0xC00

theorem bind_flags_conversion_monotone_witness :
    NatSubset (convert_bind_flags_to_resource_usage 0x8 0)
      (convert_bind_flags_to_resource_usage 0x28 0) ∧
    NatSubset 0xC00 (convert_bind_flags_to_resource_usage 0x8 0) :=
  bind_flags_conversion_monotone 0x8 0x28 0 (natSubset_of_land_eq (by decide))

end d3d11

namespace d3d10

theorem create_pipeline_layout_none_of_param {params : List pipeline_layout_param}
    {p : pipeline_layout_param} (hmem : p ∈ params)
    (hp : merge_layout_param p = none) : create_pipeline_layout params = none := by
  induction params with
  | nil => cases hmem
  | cons q rest ih =>
    rcases List.mem_cons.mp hmem with h | h
    · subst h
      simp [create_pipeline_layout, hp]
    · cases hq : merge_layout_param q
      · simp [create_pipeline_layout, hq]
      · simp [create_pipeline_layout, hq, ih h]

theorem merge_layout_param_two_mismatch (r0 r1 : descriptor_range)
    (hb : r0.binding ≤ r1.binding)
    (hreg : uint32_sub r1.dx_register_index r0.dx_register_index ≠
      r1.binding - r0.binding) :
    merge_layout_param (pipeline_layout_param.descriptor_set [r0, r1]) = none := by
  simp only [merge_layout_param]
  by_cases h0 : r0.array_size > 1 ∨ r0.dx_register_space ≠ 0
  · rw [if_pos h0]
  · rw [if_neg h0]
    simp only [merge_ranges]
    by_cases h1 : r1.type ≠ r0.type ∨ r1.array_size > 1 ∨
        r1.dx_register_space ≠ r0.dx_register_space
    · rw [if_pos h1]
    · rw [if_neg h1, if_pos hb, if_pos hreg]

/-- Claim C3 (amended): two descriptor ranges of one set whose register
indices are not contiguous with their binding indices *in the 32-bit
unsigned arithmetic the merge uses* (the wrap-around difference of the
register indices, higher-binding minus lower-binding range, differs from the
binding distance) make `create_pipeline_layout` fail: it returns `false` and
the out-handle keeps the zero it was initialised to (`none`), registering no
handle. -/
theorem create_pipeline_layout_register_stride_mismatch_fails
    (params : List pipeline_layout_param) (r0 r1 : descriptor_range)
    (hmem : pipeline_layout_param.descriptor_set [r0, r1] ∈ params)
    (hb : r0.binding ≤ r1.binding)
    (hreg : uint32_sub r1.dx_register_index r0.dx_register_index ≠
      r1.binding - r0.binding) :
    create_pipeline_layout params = none :=
  create_pipeline_layout_none_of_param hmem
    (merge_layout_param_two_mismatch r0 r1 hb hreg)

theorem create_pipeline_layout_register_stride_mismatch_witness :
    create_pipeline_layout
      [pipeline_layout_param.descriptor_set
        [{ descriptor_range.empty with
             binding := 0, dx_register_index := 0, count := 1, array_size := 1,
             visibility := 1 },
         { descriptor_range.empty with
             binding := 1, dx_register_index := 5, count := 1, array_size := 1,
             visibility := 1 }]] = none :=
  create_pipeline_layout_register_stride_mismatch_fails _ _ _
    (List.mem_singleton.mpr rfl) (by decide) (by decide)

/-- The first range of the wrap-around counterexample: binding 0 at native
register 0xFFFFFFFF. -/
def wraparound_r0 : descriptor_range :=
  { descriptor_range.empty with
    binding := 0, dx_register_index := 4294967295, count := 1, array_size := 1,
    visibility := 1 }

/-- The second range of the wrap-around counterexample: binding 5 at native
register 4, so the registers are 4294967291 apart while the bindings are 5
apart, yet `4 - 0xFFFFFFFF` wraps to 5 in 32-bit arithmetic. -/
def wraparound_r1 : descriptor_range :=
  { descriptor_range.empty with
    binding := 5, dx_register_index := 4, count := 1, array_size := 1,
    visibility := 1 }

/-- Claim C3, counterexample: these two ranges have a register-index
distance of 4294967291 and a binding-index distance of 5, yet the call
succeeds (returns `true` and registers a merged layout spanning 6 slots),
because the contiguity check compares the *wrap-around* 32-bit difference
of the register indices with the binding distance. -/
theorem create_pipeline_layout_wraparound_cex :
    wraparound_r0.dx_register_index - wraparound_r1.dx_register_index = 4294967291 ∧
    wraparound_r1.binding - wraparound_r0.binding = 5 ∧
    create_pipeline_layout
        [pipeline_layout_param.descriptor_set [wraparound_r0, wraparound_r1]] =
      some [{ wraparound_r0 with count := 6 }] := by
  refine ⟨by decide, by decide, ?_⟩
  decide

theorem merge_layout_param_two_contiguous (r0 r1 : descriptor_range)
    (ht : r1.type = r0.type) (ha0 : r0.array_size ≤ 1) (ha1 : r1.array_size ≤ 1)
    (hs0 : r0.dx_register_space = 0) (hs1 : r1.dx_register_space = 0)
    (hb : r0.binding ≤ r1.binding)
    (hreg : uint32_sub r1.dx_register_index r0.dx_register_index =
      r1.binding - r0.binding) :
    merge_layout_param (pipeline_layout_param.descriptor_set [r0, r1]) =
      some { r0 with
        count := (r0.count + (r1.binding - r0.binding)) % 4294967296,
        visibility := r0.visibility ||| r1.visibility } := by
  simp only [merge_layout_param]
  rw [if_neg (by omega)]
  simp only [merge_ranges]
  rw [if_neg (by simp [ht, hs0, hs1]; omega), if_pos hb,
    if_neg (by simp [hreg])]

/-- Claim C4 (amended): two adjacent descriptor ranges of the same set that
differ in visibility do *not* fail the call: the merge succeeds and the
resulting range carries the bitwise union (`|=`) of the two visibility
masks; a binding gap between contiguously-registered ranges likewise merges
(the count grows by the binding distance). The call fails only on a type
mismatch, an array size above 1, a non-zero register space, or the
register/binding contiguity violation of claim C3. -/
theorem create_pipeline_layout_visibility_union (r0 r1 : descriptor_range)
    (ht : r1.type = r0.type) (ha0 : r0.array_size ≤ 1) (ha1 : r1.array_size ≤ 1)
    (hs0 : r0.dx_register_space = 0) (hs1 : r1.dx_register_space = 0)
    (hb : r0.binding ≤ r1.binding)
    (hreg : uint32_sub r1.dx_register_index r0.dx_register_index =
      r1.binding - r0.binding) :
    create_pipeline_layout [pipeline_layout_param.descriptor_set [r0, r1]] =
      some [{ r0 with
        count := (r0.count + (r1.binding - r0.binding)) % 4294967296,
        visibility := r0.visibility ||| r1.visibility }] := by
  simp [create_pipeline_layout,
    merge_layout_param_two_contiguous r0 r1 ht ha0 ha1 hs0 hs1 hb hreg]

theorem create_pipeline_layout_visibility_union_witness :
    create_pipeline_layout
      [pipeline_layout_param.descriptor_set
        [{ descriptor_range.empty with
             binding := 0, dx_register_index := 0, count := 1, array_size := 1,
             visibility := 0x1 },
         { descriptor_range.empty with
             binding := 1, dx_register_index := 1, count := 1, array_size := 1,
             visibility := 0x10 }]] =
      some [{ descriptor_range.empty with
        binding := 0, dx_register_index := 0, count := 2, array_size := 1,
        visibility := 0x11 }] :=
  create_pipeline_layout_visibility_union _ _
    (by decide) (by decide) (by decide) (by decide) (by decide) (by decide) (by decide)

/-- First range of the visibility counterexample: vertex-stage visibility. -/
def visibility_r0 : descriptor_range :=
  { descriptor_range.empty with
    binding := 0, dx_register_index := 0, count := 1, array_size := 1,
    visibility := 0x1 }

/-- Second range of the visibility counterexample: pixel-stage visibility. -/
def visibility_r1 : descriptor_range :=
  { descriptor_range.empty with
    binding := 1, dx_register_index := 1, count := 1, array_size := 1,
    visibility := 0x10 }

/-- Claim C4, counterexample: two adjacent ranges of the same set differing
in visibility (vertex 0x1 versus pixel 0x10) do not fail the call; it
succeeds and registers a merged range whose visibility is the union 0x11. -/
theorem create_pipeline_layout_visibility_mismatch_succeeds_cex :
    visibility_r0.visibility ≠ visibility_r1.visibility ∧
    create_pipeline_layout
        [pipeline_layout_param.descriptor_set [visibility_r0, visibility_r1]] =
      some [{ visibility_r0 with count := 2, visibility := 0x11 }] := by
  refine ⟨by decide, ?_⟩
  decide

end d3d10

namespace d3d10

/-- Claim C5: a resource description carrying both the `shared` flag and the
`shared_nt_handle` sub-flag is rejected by `create_resource` before any
native create call: the call returns `false`, the out-handle keeps the zero
written at entry, no native call is made, and `check_capability` reports the
`shared_resource_nt_handle` capability as unsupported. -/
theorem create_resource_rejects_nt_shared (ty : ResourceType)
    (flags : resource_flags) (shared_handle : Option Nat) (env : native_env)
    (feature_level : Nat)
    (hs : flags.shared = true) (hnt : flags.shared_nt_handle = true) :
    create_resource ty flags shared_handle env =
      { success := false, out_handle := 0, calls := [] } ∧
    check_capability feature_level device_caps.shared_resource_nt_handle = false := by
  constructor
  · simp [create_resource, hs, hnt]
  · rfl

theorem create_resource_rejects_nt_shared_witness :
    create_resource ResourceType.texture_2d
        { shared := true, shared_nt_handle := true } (some 0)
        { create_ok := true, created_object := 2, open_ok := true,
          opened_object := 4, get_shared_ok := true } =
      { success := false, out_handle := 0, calls := [] } ∧
    check_capability 0xa100 device_caps.shared_resource_nt_handle = false :=
  create_resource_rejects_nt_shared _ _ _ _ _ rfl rfl

/-- Claim C6: every successful `allocate_descriptor_sets` call produces
sets whose flat descriptor array has exactly `count × stride(type)`
elements, with stride 3 for constant buffers and 1 for samplers and
shader-resource views. -/
theorem allocate_descriptor_sets_sizing (count layout_param : Nat)
    (impl : pipeline_layout_impl) (sets : List descriptor_set_impl)
    (hsucc : allocate_descriptor_sets count (some impl) layout_param = some sets)
    (htype :
      (impl.ranges.getD layout_param descriptor_range.empty).type =
          DescriptorType.sampler ∨
        (impl.ranges.getD layout_param descriptor_range.empty).type =
          DescriptorType.shader_resource_view ∨
        (impl.ranges.getD layout_param descriptor_range.empty).type =
          DescriptorType.constant_buffer) :
    ∀ s ∈ sets, s.descriptors.length =
      (impl.ranges.getD layout_param descriptor_range.empty).count *
        descriptor_type_stride
          (impl.ranges.getD layout_param descriptor_range.empty).type := by
  intro s hs
  set r := impl.ranges.getD layout_param descriptor_range.empty with hr
  have hsets : sets = List.replicate count (allocate_one_descriptor_set r) := by
    have h2 := hsucc
    simp only [allocate_descriptor_sets, Option.some.injEq] at h2
    exact h2.symm
  rw [hsets] at hs
  have hseq := List.eq_of_mem_replicate hs
  subst hseq
  rcases htype with h | h | h <;>
    simp [allocate_one_descriptor_set, descriptor_type_stride, h]

/-- The layout of the specification scenario: one constant-buffer parameter
with a slot count of 4. -/
def sizing_witness_layout : pipeline_layout_impl :=
  ⟨[{ descriptor_range.empty with type := .constant_buffer, count := 4 }]⟩

/-- The set that scenario allocates. -/
def sizing_witness_set : descriptor_set_impl :=
  allocate_one_descriptor_set
    (sizing_witness_layout.ranges.getD 0 descriptor_range.empty)

theorem allocate_descriptor_sets_sizing_witness :
    allocate_descriptor_sets 1 (some sizing_witness_layout) 0 =
      some [sizing_witness_set] ∧
    sizing_witness_set.descriptors.length = 12 :=
  ⟨rfl,
    allocate_descriptor_sets_sizing 1 0 sizing_witness_layout [sizing_witness_set]
      rfl (Or.inr (Or.inr rfl)) sizing_witness_set (List.mem_singleton.mpr rfl)⟩

/-- A create-style result that either reports success or wrote the zero
handle. -/
def fails_closed (r : Bool × Nat) : Prop := r.1 = true ∨ r.2 = 0

theorem create_vertex_shader_fc (env : pipeline_env) :
    fails_closed (create_vertex_shader env) := by
  unfold fails_closed create_vertex_shader
  split <;> simp

theorem create_geometry_shader_fc (env : pipeline_env) :
    fails_closed (create_geometry_shader env) := by
  unfold fails_closed create_geometry_shader
  split <;> simp

theorem create_pixel_shader_fc (env : pipeline_env) :
    fails_closed (create_pixel_shader env) := by
  unfold fails_closed create_pixel_shader
  split <;> simp

theorem create_input_layout_fc (env : pipeline_env) :
    fails_closed (create_input_layout env) := by
  unfold fails_closed create_input_layout
  split
  · simp
  · split <;> simp

theorem create_blend_state_fc (env : pipeline_env) :
    fails_closed (create_blend_state env) := by
  unfold fails_closed create_blend_state
  split <;> simp

theorem create_rasterizer_state_fc (env : pipeline_env) :
    fails_closed (create_rasterizer_state env) := by
  unfold fails_closed create_rasterizer_state
  split <;> simp

theorem create_depth_stencil_state_fc (env : pipeline_env) :
    fails_closed (create_depth_stencil_state env) := by
  unfold fails_closed create_depth_stencil_state
  split <;> simp

theorem create_graphics_pipeline_fc (desc : pipeline_desc) (env : pipeline_env) :
    fails_closed (create_graphics_pipeline desc env) := by
  unfold fails_closed create_graphics_pipeline
  repeat' first | (split <;> try simp) | simp

/-- Claim C7: each create-style operation of the D3D10 device is a total
function returning a success Boolean (no exception crosses the interface),
and whenever it reports failure the out-handle it wrote is zero. -/
theorem create_operations_fail_closed :
    (∀ native_ok native_object,
      (create_sampler native_ok native_object).1 = true ∨
      (create_sampler native_ok native_object).2 = 0) ∧
    (∀ ty flags shared_handle env,
      (create_resource ty flags shared_handle env).success = true ∨
      (create_resource ty flags shared_handle env).out_handle = 0) ∧
    (∀ resource usage_type native_ok native_object,
      (create_resource_view resource usage_type native_ok native_object).1 = true ∨
      (create_resource_view resource usage_type native_ok native_object).2 = 0) ∧
    (∀ desc dynamic_states env,
      (create_pipeline desc dynamic_states env).1 = true ∨
      (create_pipeline desc dynamic_states env).2 = 0) ∧
    (∀ size query_ok impl_addr,
      (create_query_pool size query_ok impl_addr).1 = true ∨
      (create_query_pool size query_ok impl_addr).2 = 0) := by
  refine ⟨?_, ?_, ?_, ?_, ?_⟩
  · intro native_ok native_object
    unfold create_sampler
    split <;> simp
  · intro ty flags shared_handle env
    unfold create_resource create_native_resource
    repeat' first | (split <;> try simp) | simp
  · intro resource usage_type native_ok native_object
    unfold create_resource_view
    repeat' first | (split <;> try simp) | simp
  · intro desc dynamic_states env
    show fails_closed (create_pipeline desc dynamic_states env)
    unfold create_pipeline
    split
    · split
      · exact create_graphics_pipeline_fc desc env
      · exact create_input_layout_fc env
      · exact create_vertex_shader_fc env
      · exact create_geometry_shader_fc env
      · exact create_pixel_shader_fc env
      · exact create_rasterizer_state_fc env
      · exact create_depth_stencil_state_fc env
      · exact create_blend_state_fc env
      · simp [fails_closed]
    · simp [fails_closed]
  · intro size query_ok impl_addr
    unfold create_query_pool
    split <;> simp

/-- Claim C10: destroying the zero ("no object") handle is a no-op for every
destroy operation of the D3D10 device: no native `Release` and no
side-record `delete` happens. -/
theorem destroy_zero_handle_noop :
    destroy_sampler 0 = destroy_action.noop ∧
    destroy_resource 0 = destroy_action.noop ∧
    destroy_resource_view 0 = destroy_action.noop ∧
    destroy_pipeline 0 = destroy_action.noop := by
  decide

end d3d10

namespace vk

/-- Claim C8 (amended): `vkCreateDevice` never aborts device creation over a
missing extra extension. When a *required* extra extension
(`VK_KHR_image_format_list` or `VK_KHR_swapchain_mutable_format`) is
unavailable, the hook resets the graphics queue family index — disabling
ReShade on that device — but still calls the trampoline and returns its
result unmodified; when the required extras are available, an unavailable
*optional* extension (such as `VK_KHR_push_descriptor`) neither aborts
creation nor disables ReShade. -/
theorem vkCreateDevice_extension_negotiation (inp : vk_create_device_input)
    (env : vk_device_env) (ht : inp.has_trampoline = true) :
    ((env.extension_supported vk_extension.khr_image_format_list = false ∨
        env.extension_supported vk_extension.khr_swapchain_mutable_format = false) →
      (vkCreateDevice inp env).result = env.trampoline_result ∧
      (vkCreateDevice inp env).reshade_enabled = false) ∧
    (env.extension_supported vk_extension.khr_image_format_list = true →
      env.extension_supported vk_extension.khr_swapchain_mutable_format = true →
      env.trampoline_result = 0 →
      inp.requests_swapchain = true → inp.has_graphics_queue = true →
      (vkCreateDevice inp env).result = 0 ∧
      (vkCreateDevice inp env).reshade_enabled = true) := by
  constructor
  · intro hreq
    by_cases htr : env.trampoline_result = 0 <;>
      rcases hreq with h | h <;>
      cases hsw : inp.requests_swapchain <;>
      cases hgq : inp.has_graphics_queue <;>
      cases hdb : inp.debug_build <;>
      cases hpd : env.extension_supported vk_extension.khr_push_descriptor <;>
      cases hifl : env.extension_supported vk_extension.khr_image_format_list <;>
      cases hmf : env.extension_supported vk_extension.khr_swapchain_mutable_format <;>
      cases hdm : env.extension_supported vk_extension.ext_debug_marker <;>
      simp_all [vkCreateDevice, add_extension]
  · intro hifl hmf htr hsw hgq
    cases hdb : inp.debug_build <;>
      cases hpd : env.extension_supported vk_extension.khr_push_descriptor <;>
      cases hdm : env.extension_supported vk_extension.ext_debug_marker <;>
      simp_all [vkCreateDevice, add_extension]

/-- Environment of the counterexample: every extra extension except the
required `VK_KHR_image_format_list` is available; the native create
succeeds. -/
def missing_required_ext_env : vk_device_env :=
  { extension_supported := fun e =>
      match e with
      | .khr_image_format_list => false
      | _ => true,
    trampoline_result := 0 }

/-- Inputs of the counterexample: a presentable device with a graphics
queue, created through a resolvable trampoline, in a release build. -/
def missing_required_ext_input : vk_create_device_input :=
  { has_trampoline := true, requests_swapchain := true,
    has_graphics_queue := true, debug_build := false }

/-- Claim C8, counterexample: with the required `VK_KHR_image_format_list`
extension unavailable, `vkCreateDevice` still returns `VK_SUCCESS` and
registers the device — the whole device creation does *not* fail; only
ReShade is disabled for the device. -/
theorem vkCreateDevice_required_extension_missing_cex :
    missing_required_ext_env.extension_supported vk_extension.khr_image_format_list
        = false ∧
    (vkCreateDevice missing_required_ext_input missing_required_ext_env).result = 0 ∧
    (vkCreateDevice missing_required_ext_input
        missing_required_ext_env).device_registered = true ∧
    (vkCreateDevice missing_required_ext_input
        missing_required_ext_env).reshade_enabled = false := by
  refine ⟨rfl, rfl, rfl, rfl⟩

/-- Environment of the amended-claim witness: only the optional
`VK_KHR_push_descriptor` extension is missing. -/
def missing_optional_ext_env : vk_device_env :=
  { extension_supported := fun e =>
      match e with
      | .khr_push_descriptor => false
      | _ => true,
    trampoline_result := 0 }

theorem vkCreateDevice_extension_negotiation_witness :
    ((vkCreateDevice missing_required_ext_input missing_required_ext_env).result =
        missing_required_ext_env.trampoline_result ∧
      (vkCreateDevice missing_required_ext_input
          missing_required_ext_env).reshade_enabled = false) ∧
    ((vkCreateDevice missing_required_ext_input missing_optional_ext_env).result = 0 ∧
      (vkCreateDevice missing_required_ext_input
          missing_optional_ext_env).reshade_enabled = true) :=
  ⟨(vkCreateDevice_extension_negotiation missing_required_ext_input
      missing_required_ext_env rfl).1 (Or.inl rfl),
    (vkCreateDevice_extension_negotiation missing_required_ext_input
      missing_optional_ext_env rfl).2 rfl rfl rfl rfl rfl⟩

/-- Claim C9: on every destruction path of the Vulkan interception layer
(`vkDestroyBuffer`, `vkFreeCommandBuffers`, `vkDestroyDevice`), every
registry-table removal happens strictly before the native trampoline that
releases the underlying object is called. -/
theorem destroy_hooks_erase_before_trampoline :
    (∀ buffer, removals_precede_trampoline (vkDestroyBuffer_trace buffer)) ∧
    (∀ command_buffers,
      removals_precede_trampoline (vkFreeCommandBuffers_trace command_buffers)) ∧
    (∀ dispatch_key queues,
      removals_precede_trampoline (vkDestroyDevice_trace dispatch_key queues)) := by
  refine ⟨?_, ?_, ?_⟩
  · intro buffer
    have hshape : vkDestroyBuffer_trace buffer =
        [vk_event.unregister_buffer buffer] ++ [vk_event.call_trampoline] := rfl
    rw [hshape]
    apply removals_precede_trampoline_of_shape
    intro e he
    simp only [List.mem_singleton] at he
    subst he
    simp
  · intro command_buffers
    have hshape : vkFreeCommandBuffers_trace command_buffers =
        command_buffers.map (fun cb => vk_event.erase_command_buffer cb) ++
          [vk_event.call_trampoline] := rfl
    rw [hshape]
    apply removals_precede_trampoline_of_shape
    intro e he
    simp only [List.mem_map] at he
    obtain ⟨cb, _, rfl⟩ := he
    simp
  · intro dispatch_key queues
    have hshape : vkDestroyDevice_trace dispatch_key queues =
        (vk_event.clear_command_buffers :: vk_event.erase_device dispatch_key ::
          ((queues.map (fun q => [vk_event.erase_queue q, vk_event.delete_wrapper])).flatten ++
            [vk_event.delete_wrapper])) ++ [vk_event.call_trampoline] := by
      simp [vkDestroyDevice_trace]
    rw [hshape]
    apply removals_precede_trampoline_of_shape
    intro e he
    simp only [List.mem_cons, List.mem_append, List.mem_flatten, List.mem_map,
      List.mem_singleton] at he
    rcases he with rfl | rfl | ⟨⟨l, ⟨q, hq, rfl⟩, hel⟩ | rfl | hnil⟩
    · simp
    · simp
    · simp only [List.mem_cons, List.mem_singleton] at hel
      rcases hel with rfl | rfl | h
      · simp
      · simp
      · cases h
    · simp
    · cases hnil

theorem destroy_hooks_erase_before_trampoline_witness :
    isRegistryRemoval ((vkDestroyBuffer_trace 7).get ⟨0, by decide⟩) = true ∧
    (vkDestroyBuffer_trace 7).get ⟨1, by decide⟩ = vk_event.call_trampoline ∧
    0 < 1 :=
  ⟨by decide, by decide,
    destroy_hooks_erase_before_trampoline.1 7 0 1 (by decide) (by decide)
      (by decide) (by decide)⟩

end vk
